import Mathlib

/-!
Verification of the MommyDent landing page component
(`src/components/DentalPregnancyLanding.tsx`).

The component is shallowly embedded: the static tooth catalog, the search
filter, the selection state, the derived active record, the info panel view
and the 3D arch layout are translated into executable Lean definitions,
and the spec's claims are settled as theorems about them.

Strings are modelled with the source's ASCII-only data; JavaScript's
`trim`, `toLowerCase` and `includes` are modelled character-wise over the
string's character list (they agree with JavaScript on all ASCII inputs).
-/

namespace MommyDent

/-- The `ToothInfo` record from the source: `{ id, name, blurb }`.
(`blurb` is the care tip shown in the UI and called "tip" in the spec.) -/
structure ToothInfo where
  id : Nat
  name : String
  blurb : String
deriving Repr, DecidableEq

/-- The 32-entry `names` list from the source (anatomical tooth names). -/
def names : List String :=
  [ "Molar kanan atas (3rd)"
  , "Molar kanan atas (2nd)"
  , "Molar kanan atas (1st)"
  , "Premolar kanan atas (2nd)"
  , "Premolar kanan atas (1st)"
  , "Caninus kanan atas"
  , "Insisivus lateral kanan atas"
  , "Insisivus sentral kanan atas"
  , "Insisivus sentral kiri atas"
  , "Insisivus lateral kiri atas"
  , "Caninus kiri atas"
  , "Premolar kiri atas (1st)"
  , "Premolar kiri atas (2nd)"
  , "Molar kiri atas (1st)"
  , "Molar kiri atas (2nd)"
  , "Molar kiri atas (3rd)"
  , "Molar kanan bawah (3rd)"
  , "Molar kanan bawah (2nd)"
  , "Molar kanan bawah (1st)"
  , "Premolar kanan bawah (2nd)"
  , "Premolar kanan bawah (1st)"
  , "Caninus kanan bawah"
  , "Insisivus lateral kanan bawah"
  , "Insisivus sentral kanan bawah"
  , "Insisivus sentral kiri bawah"
  , "Insisivus lateral kiri bawah"
  , "Caninus kiri bawah"
  , "Premolar kiri bawah (1st)"
  , "Premolar kiri bawah (2nd)"
  , "Molar kiri bawah (1st)"
  , "Molar kiri bawah (2nd)"
  , "Molar kiri bawah (3rd)"
  ]

/-- The 8-entry `tips` list from the source (pregnancy dental care tips). -/
def tips : List String :=
  [ "Perubahan hormon saat hamil dapat meningkatkan risiko gingivitis. Sikat gigi lembut 2x sehari dan gunakan benang gigi."
  , "Mual muntah dapat mengikis email. Kumur air + 1 sdt baking soda setelah muntah, tunggu 30 menit baru sikat."
  , "Ngidam manis? Batasi frekuensi camilan bergula dan minum air putih setelahnya."
  , "Kontrol karang gigi (scaling) umumnya aman pada trimester 2. Konsultasikan jadwal dengan dokter gigi."
  , "Gunakan pasta gigi berfluor. Jika gusi mudah berdarah, jangan hentikan sikat gigi — fokuskan teknik lembut."
  , "X-ray gigi hanya bila perlu, dengan pelindung timah dan sesuai saran dokter."
  , "Obat bius lokal seperti lidokain umumnya dapat dipertimbangkan; selalu infokan status kehamilan."
  , "Gusi bengkak? Kompres dingin di pipi dapat membantu sementara, namun periksa jika nyeri berlanjut."
  ]

/-- The module-level catalog from the source:
`Array.from({length: 32}, (_, i) => { id: i+1, name: names[i] ?? "Gigi " + id,
blurb: tips[i % tips.length] })`. -/
def toothInfos : List ToothInfo :=
  (List.range 32).map (fun i =>
    let id := i + 1
    { id := id
    , name := names.getD i ("Gigi " ++ toString id)
    , blurb := tips.getD (i % tips.length) "" })

/-- Convenience accessor: the catalog record with the given id
(the catalog is ordered with `id = index + 1`). -/
def catRecord (n : Nat) : ToothInfo :=
  toothInfos.getD (n - 1) { id := 0, name := "", blurb := "" }

/-- JavaScript `String.prototype.toLowerCase`, modelled character-wise
(the source's data is ASCII, where this agrees with JavaScript). -/
def jsToLower (s : String) : String :=
  String.mk (s.data.map Char.toLower)

/-- JavaScript `String.prototype.trim`, modelled as dropping leading and
trailing whitespace characters. -/
def jsTrim (s : String) : String :=
  String.mk (((s.data.dropWhile Char.isWhitespace).reverse.dropWhile
    Char.isWhitespace).reverse)

/-- Does `pat` occur as a prefix of `l`? (helper for substring search). -/
def matchesAt : List Char → List Char → Bool
  | [], _ => true
  | _ :: _, [] => false
  | p :: ps, c :: cs => p == c && matchesAt ps cs

/-- Does `pat` occur as a contiguous sublist of `l`? -/
def hasSubList (pat : List Char) : List Char → Bool
  | [] => pat.isEmpty
  | c :: cs => matchesAt pat (c :: cs) || hasSubList pat cs

/-- JavaScript `s.includes(pat)`: substring containment. -/
def jsIncludes (s pat : String) : Bool :=
  hasSubList pat.data s.data

/-- The `filtered` memo from the source:
`const q = query.trim().toLowerCase();
 if (!q) return toothInfos.slice(0, 8);
 return toothInfos.filter(t => (t.name + " " + t.blurb).toLowerCase()
   .includes(q)).slice(0, 8);` -/
def filtered (query : String) : List ToothInfo :=
  let q := jsToLower (jsTrim query)
  if q = "" then toothInfos.take 8
  else (toothInfos.filter
    (fun t => jsIncludes (jsToLower (t.name ++ " " ++ t.blurb)) q)).take 8

/-- The filter as the spec's sentence literally words it: records "whose
concatenated name+tip (lowercased) contains the normalized query as a
substring" — i.e. the name and tip concatenated with NO separator. -/
def filteredSpecLiteral (query : String) : List ToothInfo :=
  let q := jsToLower (jsTrim query)
  if q = "" then toothInfos.take 8
  else (toothInfos.filter
    (fun t => jsIncludes (jsToLower (t.name ++ t.blurb)) q)).take 8

/-- The filter as amended: the haystack is the name and the tip joined by a
single space, matching the source's `t.name + " " + t.blurb`. -/
def filteredSpecAmended (query : String) : List ToothInfo :=
  let q := jsToLower (jsTrim query)
  if q = "" then toothInfos.take 8
  else (toothInfos.filter
    (fun t => jsIncludes (jsToLower (t.name ++ " " ++ t.blurb)) q)).take 8

/-- The initial selection state: `useState<number | null>(null)`. -/
def initialActiveId : Option Nat := none

/-- Selecting a tooth: every click handler calls `setActiveId(id)`
(search-result button `onClick={() => setActiveId(t.id)}` and 3D scene
`onSelect={setActiveId}`), replacing the state outright. -/
def select (i : Nat) (_s : Option Nat) : Option Nat := some i

/-- Dismissing the info panel: `onClear={() => setActiveId(null)}`. -/
def dismiss (_s : Option Nat) : Option Nat := none

/-- The derived active record from the source:
`activeId ? toothInfos.find(t => t.id === activeId) ?? null : null`.
A `Nat` id is truthy in JavaScript exactly when it is nonzero. -/
def activeTooth (activeId : Option Nat) : Option ToothInfo :=
  match activeId with
  | none => none
  | some v => if v = 0 then none else toothInfos.find? (fun t => t.id == v)

/-- What the info panel displays: `AnimatePresence` renders the card (with
`activeTooth.name` and `activeTooth.blurb`) only when `activeTooth` is
non-null, and nothing otherwise. -/
def infoPanelView (t : Option ToothInfo) : Option (String × String) :=
  t.map (fun r => (r.name, r.blurb))

/-- The component's two pieces of state, `query` and `activeId`
(`useState` in `DentalPregnancyLanding`). -/
structure UiState where
  query : String
  activeId : Option Nat
deriving Repr, DecidableEq

/-- Typing in the search input: `onChange={(e) => setQuery(e.target.value)}`. -/
def setQueryEvent (s : String) (st : UiState) : UiState :=
  { st with query := s }

/-- Clicking a search result or a 3D placeholder: `setActiveId(id)`. -/
def selectEvent (i : Nat) (st : UiState) : UiState :=
  { st with activeId := some i }

/-- Closing the info panel: `setActiveId(null)`. -/
def dismissEvent (st : UiState) : UiState :=
  { st with activeId := none }

/-- The filtered list the component renders, recomputed from the query
alone (`useMemo(..., [query])`). -/
def filteredOf (st : UiState) : List ToothInfo :=
  filtered st.query

/-- One placeholder of the 3D scene: the id passed to `Tooth` and its
`position` (x, y, z), in exact rational arithmetic. -/
structure Placeholder where
  id : Nat
  pos : ℚ × ℚ × ℚ
deriving Repr, DecidableEq

/-- The position list of `TeethRow`: for `i` in `0..15`,
`t = (i - 7.5) / 7.5`, `x = t * 3.6`, `z = -t^2 * 1.6 * mirror`. -/
def teethRowPositions (y : ℚ) (mirror : Int) : List (ℚ × ℚ × ℚ) :=
  (List.range 16).map (fun i =>
    let t : ℚ := ((i : ℚ) - 15/2) / (15/2)
    (t * (18/5), y, -(t ^ 2) * (8/5) * (mirror : ℚ)))

/-- A row of 16 `Tooth` placeholders with ids
`mirror === 1 ? i + 1 : i + 17`. -/
def teethRow (y : ℚ) (mirror : Int) : List Placeholder :=
  ((teethRowPositions y mirror).enum).map (fun pr =>
    { id := if mirror = 1 then pr.1 + 1 else pr.1 + 17, pos := pr.2 })

/-- The whole scene from `TeethScene`:
`<TeethRow y={0.7} mirror={1}/>` and `<TeethRow y={-0.7} mirror={-1}/>`. -/
def teethScene : List Placeholder :=
  teethRow (7/10) 1 ++ teethRow (-(7/10)) (-1)

/-- The ids a 3D placeholder click can report. -/
def sceneIds : List Nat := teethScene.map Placeholder.id

/-- One user transition on the selection state: clicking an entry of the
filtered search list, clicking a 3D placeholder, or dismissing the panel. -/
inductive Step : Option Nat → Option Nat → Prop where
  | searchClick (q : String) (t : ToothInfo) (ht : t ∈ filtered q)
      (s : Option Nat) : Step s (select t.id s)
  | toothClick (i : Nat) (hi : i ∈ sceneIds) (s : Option Nat) :
      Step s (select i s)
  | clear (s : Option Nat) : Step s (dismiss s)

/-- Selection states reachable from the initial state by user transitions. -/
inductive Reachable : Option Nat → Prop where
  | init : Reachable initialActiveId
  | next {s s' : Option Nat} : Reachable s → Step s s' → Reachable s'

/-! ## Helper lemmas -/

/-- Both branches of the filter end in `.slice(0, 8)`, so the result is a
sublist (subsequence, hence a subset in catalog order) of the catalog. -/
theorem filtered_sublist (q : String) : (filtered q).Sublist toothInfos := by
  unfold filtered
  dsimp only
  split
  · exact List.take_sublist 8 toothInfos
  · exact (List.take_sublist 8 _).trans (List.filter_sublist toothInfos)

/-- Both branches of the filter end in `.slice(0, 8)`, capping the length. -/
theorem filtered_length_le (q : String) : (filtered q).length ≤ 8 := by
  unfold filtered
  dsimp only
  split
  · exact List.length_take_le 8 toothInfos
  · exact List.length_take_le 8 _

/-- Every id assigned by the scene layout is the id of a catalog record. -/
theorem sceneIds_in_catalog : ∀ i ∈ sceneIds, ∃ r ∈ toothInfos, r.id = i := by
  decide

/-- Projecting the positions out of a row of placeholders recovers the raw
position list. -/
theorem teethRow_map_pos (y : ℚ) (m : Int) :
    (teethRow y m).map Placeholder.pos = teethRowPositions y m := by
  unfold teethRow
  rw [List.map_map]
  exact List.enum_map_snd (teethRowPositions y m)

/-- The un-mirrored row's positions: x is affine in the index (linear
spread) and z is a downward-opening quadratic in the index (inward
curvature). -/
theorem teethRowPositions_linear_quadratic (y : ℚ) :
    teethRowPositions y 1 = (List.range 16).map (fun i =>
      ((12/25 : ℚ) * (i : ℚ) - 18/5, y,
       -(32/1125 : ℚ) * ((i : ℚ) - 15/2) ^ 2)) := by
  unfold teethRowPositions
  refine List.map_congr_left ?_
  intro i _
  dsimp only
  simp only [Prod.mk.injEq]
  refine ⟨by ring, trivial, by push_cast; ring⟩

/-- The `mirror = -1` row is the pointwise (x, -y, -z) mirror image of the
`mirror = 1` row. -/
theorem teethRowPositions_mirror (y : ℚ) :
    teethRowPositions (-y) (-1)
      = (teethRowPositions y 1).map (fun p => (p.1, -p.2.1, -p.2.2)) := by
  unfold teethRowPositions
  rw [List.map_map]
  refine List.map_congr_left ?_
  intro i _
  dsimp only [Function.comp]
  simp only [Prod.mk.injEq]
  refine ⟨trivial, trivial, by push_cast; ring⟩

/-! ## Claims -/

/-- C1, counterexample: the claim reads the haystack as the literal
concatenation name+tip, but the code joins them with a space
(`t.name + " " + t.blurb`). For the query "atasx-ray", record 6
("Caninus kanan atas", tip starting "X-ray ...") has a concatenated
name+tip whose lowercase form contains the normalized query, yet the code
returns the empty list, excluding it even though fewer than 8 records
matched. -/
theorem C1_literal_concat_counterexample :
    jsToLower (jsTrim "atasx-ray") ≠ ""
    ∧ catRecord 6 ∈ toothInfos
    ∧ jsIncludes (jsToLower ((catRecord 6).name ++ (catRecord 6).blurb))
        (jsToLower (jsTrim "atasx-ray")) = true
    ∧ filtered "atasx-ray" = [] := by decide

/-- C1, amended: the Search Filter normalizes the query by trimming and
lowercasing; if the normalized query is empty it returns the first 8
catalog records in catalog order, and otherwise the first at-most-8
records, in catalog order, whose name and tip JOINED BY A SINGLE SPACE,
lowercased, contain the normalized query as a substring. -/
theorem C1_filter_behavior (q : String) :
    filtered q = filteredSpecAmended q
    ∧ (jsToLower (jsTrim q) = "" → filtered q = toothInfos.take 8)
    ∧ (jsToLower (jsTrim q) ≠ "" →
        filtered q = (toothInfos.filter (fun t =>
          jsIncludes (jsToLower (t.name ++ " " ++ t.blurb))
            (jsToLower (jsTrim q)))).take 8) := by
  refine ⟨rfl, fun h => ?_, fun h => ?_⟩
  · simp only [filtered, h, if_pos]
  · simp only [filtered, h, if_neg, if_false]

/-- C1, witness for the amended theorem at the concrete query "x-ray". -/
theorem C1_filter_behavior_witness :
    filtered "x-ray" = filteredSpecAmended "x-ray"
    ∧ jsToLower (jsTrim "x-ray") ≠ ""
    ∧ filtered "x-ray" = (toothInfos.filter (fun t =>
        jsIncludes (jsToLower (t.name ++ " " ++ t.blurb))
          (jsToLower (jsTrim "x-ray")))).take 8 :=
  ⟨(C1_filter_behavior "x-ray").1, by decide,
   (C1_filter_behavior "x-ray").2.2 (by decide)⟩

/-- C2: the catalog has exactly 32 records; ids are sequential from 1
(hence unique); every name is non-empty; every tip is one of the 8 fixed
tip strings and equals the tip list at index (id - 1) mod 8. -/
theorem C2_catalog_shape :
    toothInfos.length = 32
    ∧ toothInfos.map ToothInfo.id = (List.range 32).map (fun i => i + 1)
    ∧ toothInfos.all (fun t => t.name != "") = true
    ∧ toothInfos.all (fun t => tips.contains t.blurb) = true
    ∧ toothInfos.all
        (fun t => t.blurb == tips.getD ((t.id - 1) % 8) "") = true := by
  decide

/-- C3: the machine starts in NoSelection; selecting any id from any state
yields Selected(id) outright; dismissing from any state yields NoSelection;
for every catalog id the info panel shows exactly that record's name and
tip, and in NoSelection it renders nothing. -/
theorem C3_selection_machine :
    initialActiveId = none
    ∧ (∀ (i : Nat) (s : Option Nat), select i s = some i)
    ∧ (∀ s : Option Nat, dismiss s = none)
    ∧ (∀ i : Fin 32,
        infoPanelView (activeTooth (some (i.1 + 1)))
          = some ((catRecord (i.1 + 1)).name, (catRecord (i.1 + 1)).blurb))
    ∧ infoPanelView (activeTooth none) = none :=
  ⟨rfl, fun _ _ => rfl, fun _ => rfl, by decide, rfl⟩

/-- C4: for every query the result has at most 8 records and is a sublist
of the catalog, i.e. its elements appear in catalog order. -/
theorem C4_capped_and_ordered (q : String) :
    (filtered q).length ≤ 8 ∧ (filtered q).Sublist toothInfos :=
  ⟨filtered_length_le q, filtered_sublist q⟩

/-- C4, witness at the concrete query "gingivitis". -/
theorem C4_capped_and_ordered_witness :
    (filtered "gingivitis").length ≤ 8
    ∧ (filtered "gingivitis").Sublist toothInfos :=
  C4_capped_and_ordered "gingivitis"

/-- C5: in every selection state reachable from the initial state by user
transitions, a present selection equals the id of some catalog record. -/
theorem C5_selection_invariant {s : Option Nat} (h : Reachable s) (v : Nat)
    (hv : s = some v) : ∃ r ∈ toothInfos, r.id = v := by
  induction h with
  | init => exact absurd hv (by simp [initialActiveId])
  | next _ hstep _ =>
    cases hstep with
    | searchClick q t ht s0 =>
      obtain rfl : t.id = v := by simpa [select] using hv
      exact ⟨t, (filtered_sublist q).subset ht, rfl⟩
    | toothClick i hi s0 =>
      obtain rfl : i = v := by simpa [select] using hv
      exact sceneIds_in_catalog i hi
    | clear s0 => exact absurd hv (by simp [dismiss])

/-- C5, witness: the state Selected(5) is reachable by clicking placeholder
5, and 5 is indeed a catalog id. -/
theorem C5_selection_invariant_witness :
    Reachable (some 5) ∧ ∃ r ∈ toothInfos, r.id = 5 := by
  have h5 : Reachable (some 5) :=
    Reachable.next Reachable.init
      (Step.toothClick 5 (by decide) initialActiveId)
  exact ⟨h5, C5_selection_invariant h5 5 rfl⟩

/-- C6: selecting the same id twice in a row is idempotent, and the result
is Selected(id). -/
theorem C6_select_idempotent (i : Nat) (s : Option Nat) :
    select i (select i s) = select i s ∧ select i s = some i :=
  ⟨rfl, rfl⟩

/-- C6, witness: selecting id 12 twice from Selected(5). -/
theorem C6_select_idempotent_witness :
    select 12 (select 12 (some 5)) = select 12 (some 5)
    ∧ select 12 (some 5) = some 12 :=
  C6_select_idempotent 12 (some 5)

/-- C7: if the selection holds a value that is no catalog record's id, the
derived active record is absent and the info panel renders exactly what it
renders in NoSelection — nothing; the lookup is total, so no error can be
raised. -/
theorem C7_out_of_range (v : Nat) (h : ∀ r ∈ toothInfos, r.id ≠ v) :
    activeTooth (some v) = none
    ∧ infoPanelView (activeTooth (some v))
        = infoPanelView (activeTooth none) := by
  have hfind : toothInfos.find? (fun t => t.id == v) = none := by
    rw [List.find?_eq_none]
    intro t ht
    simpa using h t ht
  have ha : activeTooth (some v) = none := by
    by_cases hv : v = 0 <;> simp [activeTooth, hv, hfind]
  exact ⟨ha, by rw [ha]; rfl⟩

/-- C7, witness at the out-of-range id 33. -/
theorem C7_out_of_range_witness :
    (∀ r ∈ toothInfos, r.id ≠ 33)
    ∧ (activeTooth (some 33) = none
       ∧ infoPanelView (activeTooth (some 33))
           = infoPanelView (activeTooth none)) :=
  ⟨by decide, C7_out_of_range 33 (by decide)⟩

/-- C8: the query "x-ray" returns precisely the records whose tip mentions
x-ray — ids 6, 14, 22 and 30 (tip index 5) — within the cap of 8. -/
theorem C8_xray_query :
    (filtered "x-ray").map ToothInfo.id = [6, 14, 22, 30]
    ∧ (filtered "x-ray").length ≤ 8
    ∧ toothInfos.filter (fun t =>
        jsIncludes (jsToLower t.blurb) (jsToLower (jsTrim "x-ray")))
      = filtered "x-ray" := by
  decide

/-- C9: the scene has exactly 32 placeholders in two rows of 16; the ids
are exactly 1..32, with 1..16 on the mirror = 1 row and 17..32 on the
mirror = -1 row; the positions follow a parametric curve with affine
(linear-spread) x and quadratic (inward-curved) z; and the second row is
the pointwise (x, -y, -z) mirror image of the first. -/
theorem C9_scene_layout :
    teethScene.length = 32
    ∧ sceneIds = (List.range 32).map (fun i => i + 1)
    ∧ (teethRow (7/10) 1).map Placeholder.id
        = (List.range 16).map (fun i => i + 1)
    ∧ (teethRow (-(7/10)) (-1)).map Placeholder.id
        = (List.range 16).map (fun i => i + 17)
    ∧ (teethRow (7/10) 1).map Placeholder.pos
        = (List.range 16).map (fun i =>
            ((12/25 : ℚ) * (i : ℚ) - 18/5, (7/10 : ℚ),
             -(32/1125 : ℚ) * ((i : ℚ) - 15/2) ^ 2))
    ∧ (teethRow (-(7/10)) (-1)).map Placeholder.pos
        = ((teethRow (7/10) 1).map Placeholder.pos).map
            (fun p => (p.1, -p.2.1, -p.2.2)) := by
  refine ⟨by decide, by decide, by decide, by decide, ?_, ?_⟩
  · rw [teethRow_map_pos, teethRowPositions_linear_quadratic]
  · rw [teethRow_map_pos, teethRow_map_pos, teethRowPositions_mirror]

/-- C10: updating the query leaves the selection unchanged; selecting or
dismissing leaves the query unchanged; and the filtered list is a function
of the query alone, so two states with the same query yield the same
filtered list. -/
theorem C10_state_independence :
    (∀ (s : String) (st : UiState), (setQueryEvent s st).activeId = st.activeId)
    ∧ (∀ (i : Nat) (st : UiState), (selectEvent i st).query = st.query)
    ∧ (∀ st : UiState, (dismissEvent st).query = st.query)
    ∧ (∀ st st' : UiState, st.query = st'.query →
        filteredOf st = filteredOf st') := by
  refine ⟨fun _ _ => rfl, fun _ _ => rfl, fun _ => rfl, fun st st' h => ?_⟩
  unfold filteredOf
  rw [h]

/-- C10, witness: two states with the same query "mual" but different
selections produce the same filtered list. -/
theorem C10_state_independence_witness :
    (UiState.mk "mual" (some 3)).query = (UiState.mk "mual" none).query
    ∧ filteredOf (UiState.mk "mual" (some 3))
        = filteredOf (UiState.mk "mual" none) :=
  ⟨rfl, C10_state_independence.2.2.2
    (UiState.mk "mual" (some 3)) (UiState.mk "mual" none) rfl⟩

end MommyDent
